import Mathlib

/-!
Shallow embedding of the NovaFreeze route-guardian dashboard.

Coordinates are modelled as rationals. The host environment's `Math.sin`,
`Math.PI` and `Math.random` are external library facilities, so they enter
the embedding as parameters: `sin : ℚ → ℚ`, `pi : ℚ`, and a draw stream
`rnd : ℕ → ℚ` whose values are consumed in call order (the generator draws
twice per point: index `2*i` for the latitude jitter and `2*i+1` for the
longitude jitter, mirroring the two successive `Math.random()` calls in the
source). Network calls enter as a `ProviderResponse` value describing what
the `fetch` would have produced.
-/

namespace NovaFreeze

/-- A `[lat, lng]` pair as used throughout the source (Leaflet order). -/
structure LatLng where
  lat : ℚ
  lng : ℚ
  deriving DecidableEq, Repr

/-- Embeds `generateFallbackRoute(start, end)` from the map components
(`part_000` lines 123-140 and `part_001` lines 124-141, which are textually
identical).  `segments = 20`; for each `i` in `0..20` the code computes
`progress = i/segments`, `curveFactor = sin(progress*PI) * 0.01`, and then
adds `curveFactor * (random()-0.5)` to the interpolated latitude and — with a
fresh random draw — to the interpolated longitude. -/
def generateFallbackRoute (sin : ℚ → ℚ) (pi : ℚ) (rnd : ℕ → ℚ)
    (start endC : LatLng) : List LatLng :=
  let latDiff := endC.lat - start.lat
  let lngDiff := endC.lng - start.lng
  (List.range (20 + 1)).map (fun (i : ℕ) =>
    let progress : ℚ := (i : ℚ) / 20
    let curveFactor : ℚ := sin (progress * pi) * (1 / 100)
    let lat := start.lat + latDiff * progress + curveFactor * (rnd (2 * i) - 1 / 2)
    let lng := start.lng + lngDiff * progress + curveFactor * (rnd (2 * i + 1) - 1 / 2)
    LatLng.mk lat lng)

/-- What the provider `fetch` produced, as observed by the client code:
either the promise rejected (`thrown`), or a response arrived with an `ok`
flag, an HTTP status, and a parsed result list (`none` models a missing
`routes`/`features` field; each element is a geometry given as `[lng, lat]`
pairs). -/
inductive ProviderResponse where
  | thrown : ProviderResponse
  | resp (ok : Bool) (status : ℕ) (routes : Option (List (List (ℚ × ℚ)))) : ProviderResponse
  deriving DecidableEq, Repr

/-- The failure condition the source treats as an error: a thrown network
error, a non-ok (non-2xx) response, or a missing/empty route list. -/
def providerCallFails : ProviderResponse → Bool
  | .thrown => true
  | .resp ok _ routes =>
      !ok ||
        (match routes with
         | none => true
         | some [] => true
         | some (_ :: _) => false)

/-- The hardcoded placeholder token of `part_000` line 15. -/
def MAPBOX_TOKEN : String := "pk.your_mapbox_token_here"

/-- The guard `!MAPBOX_TOKEN || MAPBOX_TOKEN === 'pk.your_mapbox_token_here'`
of `part_000` line 89 (an empty string is falsy in JS). -/
def tokenNotConfigured (token : String) : Bool :=
  token == "" || token == "pk.your_mapbox_token_here"

/-- Embeds `fetchMapboxRoute(start, end)` (`part_000` lines 86-121).  With no
configured token it returns the direct two-point line.  Otherwise it performs
the fetch; a thrown error, a non-ok status, or a missing/empty `data.routes`
all land in the `catch` block, which returns `generateFallbackRoute`.  On
success the first route's geometry is converted from `[lng, lat]` to
`[lat, lng]`. -/
def fetchMapboxRoute (token : String) (response : ProviderResponse)
    (sin : ℚ → ℚ) (pi : ℚ) (rnd : ℕ → ℚ) (start endC : LatLng) : List LatLng :=
  if tokenNotConfigured token then
    [start, endC]
  else
    match response with
    | .thrown => generateFallbackRoute sin pi rnd start endC
    | .resp ok _ routes =>
        if !ok then
          generateFallbackRoute sin pi rnd start endC
        else
          match routes with
          | none => generateFallbackRoute sin pi rnd start endC
          | some [] => generateFallbackRoute sin pi rnd start endC
          | some (r :: _) => r.map (fun p => LatLng.mk p.2 p.1)

/-- Embeds `fetchOpenRouteServiceRoute(start, end)` (`part_001` lines
86-122).  Identical failure handling, but with no token guard and reading
`data.features` instead of `data.routes`. -/
def fetchOpenRouteServiceRoute (response : ProviderResponse)
    (sin : ℚ → ℚ) (pi : ℚ) (rnd : ℕ → ℚ) (start endC : LatLng) : List LatLng :=
  match response with
  | .thrown => generateFallbackRoute sin pi rnd start endC
  | .resp ok _ features =>
      if !ok then
        generateFallbackRoute sin pi rnd start endC
      else
        match features with
        | none => generateFallbackRoute sin pi rnd start endC
        | some [] => generateFallbackRoute sin pi rnd start endC
        | some (f :: _) => f.map (fun p => LatLng.mk p.2 p.1)

/-- One step of the animation interval callback (`part_000` lines 244-258,
`part_001` lines 245-259, `MapComponent.tsx` lines 208-222): advance
`currentSegment` while `currentSegment < coordinates.length - 1`, otherwise
restart from 0. -/
def animationStep (len : ℕ) (currentSegment : ℕ) : ℕ :=
  if currentSegment < len - 1 then currentSegment + 1 else 0

/-- An entry of `BC_LOCATIONS` (`LogisticsDashboard.tsx` lines 10-21). -/
structure Location where
  name : String
  coords : LatLng
  deriving DecidableEq, Repr

/-- The static catalog `BC_LOCATIONS`. -/
def BC_LOCATIONS : List Location :=
  [⟨"Downtown Vancouver", ⟨49.2827, -123.1207⟩⟩,
   ⟨"UBC Vancouver", ⟨49.2606, -123.2460⟩⟩,
   ⟨"Surrey Central Station", ⟨49.1897, -122.8481⟩⟩,
   ⟨"Richmond Centre", ⟨49.1737, -123.1365⟩⟩,
   ⟨"Abbotsford International Airport", ⟨49.0252, -122.3606⟩⟩,
   ⟨"Kelowna General Hospital", ⟨49.8844, -119.4821⟩⟩,
   ⟨"Kamloops North Station", ⟨50.6745, -120.3273⟩⟩,
   ⟨"Victoria Harbour", ⟨48.4284, -123.3656⟩⟩,
   ⟨"Nanaimo Ferry Terminal", ⟨49.1659, -123.9401⟩⟩,
   ⟨"Prince George Civic Centre", ⟨53.9171, -122.7497⟩⟩]

/-- The route descriptor built by `handleGenerateRoute` (`end` is renamed
`endC`: `end` is a Lean keyword). -/
structure RouteData where
  start : LatLng
  endC : LatLng
  weather : String
  startName : String
  endName : String
  deriving DecidableEq, Repr

/-- The dashboard's React state (`LogisticsDashboard.tsx` lines 30-35). -/
structure DashState where
  startLocation : String
  endLocation : String
  weather : String
  route : Option RouteData
  error : String
  isLoading : Bool
  deriving DecidableEq, Repr

/-- Result of one run of `handleGenerateRoute`: the final component state and
the argument of the `mapRef.current.updateRoute` call, if one was made. -/
structure HandlerResult where
  state : DashState
  mapUpdate : Option RouteData
  deriving DecidableEq, Repr

/-- Embeds `handleGenerateRoute` (`LogisticsDashboard.tsx` lines 38-83) as a
state transition.  `mapPresent` models whether `mapRef.current` is non-null.
The simulated 1s delay has no observable effect in this single-run model.
The only throw inside the `try` is the explicit `Invalid location` throw when
a `find` fails; the `catch` sets the no-valid-route error, and `finally`
clears `isLoading` on the paths that set it. -/
def handleGenerateRoute (mapPresent : Bool) (st0 : DashState) : HandlerResult :=
  let st := { st0 with error := "" }
  if st.startLocation = "" ∨ st.endLocation = "" then
    { state := { st with error := "Please select both start and end locations." },
      mapUpdate := none }
  else if st.startLocation = st.endLocation then
    { state := { st with error := "⚠️ Please choose different locations." },
      mapUpdate := none }
  else
    let st1 := { st with isLoading := true }
    match BC_LOCATIONS.find? (fun loc => loc.name == st1.startLocation),
          BC_LOCATIONS.find? (fun loc => loc.name == st1.endLocation) with
    | some s, some e =>
        let routeData : RouteData :=
          { start := s.coords, endC := e.coords, weather := st1.weather,
            startName := s.name, endName := e.name }
        { state := { st1 with route := some routeData, isLoading := false },
          mapUpdate := if mapPresent then some routeData else none }
    | some _, none =>
        { state :=
            { st1 with
                error := "⚠️ No valid route found for selected locations."
                isLoading := false }
          mapUpdate := none }
    | none, _ =>
        { state :=
            { st1 with
                error := "⚠️ No valid route found for selected locations."
                isLoading := false }
          mapUpdate := none }

/-- `isHighRisk` as computed in `LogisticsDashboard.tsx` line 85 and
`RouteAnalysisTable` (`MapComponent.tsx` line 271). -/
def isHighRisk (weather : String) : Bool :=
  weather == "rain" || weather == "snow"

/-- The icons rendered by `getWeatherIcon` (`MapComponent.tsx` lines
273-280); the `default` branch renders the sun icon. -/
inductive WeatherIcon where
  | sun : WeatherIcon
  | cloudRain : WeatherIcon
  | snowflake : WeatherIcon
  deriving DecidableEq, Repr

/-- `getWeatherIcon` (`MapComponent.tsx` lines 273-280): the `switch` is an
equality chain on the weather string. -/
def getWeatherIcon (weather : String) : WeatherIcon :=
  if weather = "sunny" then .sun
  else if weather = "rain" then .cloudRain
  else if weather = "snow" then .snowflake
  else .sun

/-- `getWeatherLabel` (`MapComponent.tsx` lines 282-289). -/
def getWeatherLabel (weather : String) : String :=
  if weather = "sunny" then "☀️ Sunny"
  else if weather = "rain" then "🌧️ Rain"
  else if weather = "snow" then "❄️ Snow"
  else "☀️ Sunny"

/-- `getSuggestedVehicle` (`MapComponent.tsx` lines 291-296). -/
def getSuggestedVehicle (weather : String) : String :=
  if isHighRisk weather then "Heavy-Duty Refrigerated Truck"
  else "Standard Refrigerated Van"

/-- `getOptimizationMethod` (`MapComponent.tsx` lines 298-303). -/
def getOptimizationMethod (weather : String) : String :=
  if isHighRisk weather then "Weather-adapted route (safety priority)"
  else "Fastest route (time optimized)"

/-- `getNotes` (`MapComponent.tsx` lines 305-313). -/
def getNotes (weather : String) : String :=
  if weather = "snow" then "Use snow chains, check tire pressure, reduce speed"
  else if weather = "rain" then "Monitor road conditions, avoid flooded areas"
  else "Optimal conditions for delivery"

/-- The badge style of the risk cell (`MapComponent.tsx` lines 353-357):
red for high risk, green otherwise. -/
def riskBadgeStyle (weather : String) : String :=
  if isHighRisk weather then "bg-red-100 text-red-800"
  else "bg-green-100 text-green-800"

/-! ## Helper lemmas shared by the claim theorems -/

/-- The fallback route always has 21 points. -/
theorem generateFallbackRoute_length (sin : ℚ → ℚ) (pi : ℚ) (rnd : ℕ → ℚ)
    (start endC : LatLng) :
    (generateFallbackRoute sin pi rnd start endC).length = 21 := by
  simp [generateFallbackRoute]

/-- Closed form of the `i`-th point of the fallback route. -/
theorem generateFallbackRoute_point (sin : ℚ → ℚ) (pi : ℚ) (rnd : ℕ → ℚ)
    (start endC : LatLng) (i : ℕ) (hi : i < 21) :
    (generateFallbackRoute sin pi rnd start endC)[i]? =
      some (LatLng.mk
        (start.lat + (endC.lat - start.lat) * ((i : ℚ) / 20)
          + sin ((i : ℚ) / 20 * pi) * (1 / 100) * (rnd (2 * i) - 1 / 2))
        (start.lng + (endC.lng - start.lng) * ((i : ℚ) / 20)
          + sin ((i : ℚ) / 20 * pi) * (1 / 100) * (rnd (2 * i + 1) - 1 / 2))) := by
  unfold generateFallbackRoute
  rw [List.getElem?_map, List.getElem?_range (by omega : i < 20 + 1)]
  rfl

/-- Bound on the jitter term: `|s| ≤ 1` and `r ∈ [0, 1]` give
`|s * (1/100) * (r - 1/2)| ≤ 1/200`. -/
theorem jitter_abs_le (s r : ℚ) (hs : |s| ≤ 1) (hr0 : 0 ≤ r) (hr1 : r ≤ 1) :
    |s * (1 / 100) * (r - 1 / 2)| ≤ 1 / 200 := by
  rw [abs_mul, abs_mul]
  have h2 : |r - 1 / 2| ≤ 1 / 2 := abs_le.mpr (by constructor <;> linarith)
  have h1 : |(1 / 100 : ℚ)| = 1 / 100 := by norm_num
  calc |s| * |(1 / 100 : ℚ)| * |r - 1 / 2|
      ≤ 1 * (1 / 100) * (1 / 2) := by
        rw [h1]
        gcongr
    _ = 1 / 200 := by norm_num

/-! ## Claim theorems -/

/-- C1: whenever the provider call fails (thrown network error, non-ok HTTP
status, or a missing/empty route/feature list) — and for the Mapbox variant
the token guard that would short-circuit the call is passed — both fetch
functions return exactly the coordinate sequence the fallback generator
produces for the same start and end (and the same draw stream); the embedding
is a total function, so no exception reaches the caller. -/
theorem C1_failure_falls_back (token : String) (response : ProviderResponse)
    (sin : ℚ → ℚ) (pi : ℚ) (rnd : ℕ → ℚ) (start endC : LatLng)
    (htok : tokenNotConfigured token = false)
    (hfail : providerCallFails response = true) :
    fetchMapboxRoute token response sin pi rnd start endC
      = generateFallbackRoute sin pi rnd start endC ∧
    fetchOpenRouteServiceRoute response sin pi rnd start endC
      = generateFallbackRoute sin pi rnd start endC := by
  cases response with
  | thrown =>
      exact ⟨by simp [fetchMapboxRoute, htok], rfl⟩
  | resp ok status routes =>
      cases ok with
      | false =>
          exact ⟨by simp [fetchMapboxRoute, htok], by simp [fetchOpenRouteServiceRoute]⟩
      | true =>
          match routes with
          | none =>
              exact ⟨by simp [fetchMapboxRoute, htok], by simp [fetchOpenRouteServiceRoute]⟩
          | some [] =>
              exact ⟨by simp [fetchMapboxRoute, htok], by simp [fetchOpenRouteServiceRoute]⟩
          | some (r :: rs) =>
              simp [providerCallFails] at hfail

theorem C1_witness :
    tokenNotConfigured "sk.real_token" = false ∧
    providerCallFails ProviderResponse.thrown = true ∧
    (fetchMapboxRoute "sk.real_token" ProviderResponse.thrown (fun _ => 0) 0 (fun _ => 0)
        (LatLng.mk 0 0) (LatLng.mk 1 1)
      = generateFallbackRoute (fun _ => 0) 0 (fun _ => 0) (LatLng.mk 0 0) (LatLng.mk 1 1) ∧
     fetchOpenRouteServiceRoute ProviderResponse.thrown (fun _ => 0) 0 (fun _ => 0)
        (LatLng.mk 0 0) (LatLng.mk 1 1)
      = generateFallbackRoute (fun _ => 0) 0 (fun _ => 0) (LatLng.mk 0 0) (LatLng.mk 1 1)) :=
  ⟨by decide, rfl,
   C1_failure_falls_back "sk.real_token" ProviderResponse.thrown (fun _ => 0) 0 (fun _ => 0)
     (LatLng.mk 0 0) (LatLng.mk 1 1) (by decide) rfl⟩

/-- C2: for every start/end pair and every draw stream, the fallback route
has exactly 21 points (segments + 1 for the fixed 20 segments), its first
point is exactly the start and its last point exactly the end.  The
identities `sin 0 = 0` and `sin π = 0` of the ideal math library enter as
hypotheses on the `sin`/`pi` parameters. -/
theorem C2_fallback_endpoints (sin : ℚ → ℚ) (pi : ℚ) (rnd : ℕ → ℚ)
    (start endC : LatLng) (hsin0 : sin 0 = 0) (hsinpi : sin pi = 0) :
    (generateFallbackRoute sin pi rnd start endC).length = 21 ∧
    (generateFallbackRoute sin pi rnd start endC).head? = some start ∧
    (generateFallbackRoute sin pi rnd start endC).getLast? = some endC := by
  obtain ⟨slat, slng⟩ := start
  obtain ⟨elat, elng⟩ := endC
  refine ⟨generateFallbackRoute_length _ _ _ _ _, ?_, ?_⟩
  · rw [List.head?_eq_getElem?,
      generateFallbackRoute_point sin pi rnd _ _ 0 (by norm_num)]
    have h0 : ((0 : ℕ) : ℚ) / 20 = 0 := by norm_num
    simp [h0, hsin0]
  · rw [List.getLast?_eq_getElem?, generateFallbackRoute_length,
      (by norm_num : 21 - 1 = 20),
      generateFallbackRoute_point sin pi rnd _ _ 20 (by norm_num)]
    have h20 : ((20 : ℕ) : ℚ) / 20 = 1 := by norm_num
    simp only [h20, one_mul, hsinpi, zero_mul, add_zero, mul_one,
      Option.some.injEq, LatLng.mk.injEq]
    constructor <;> ring

theorem C2_witness :
    (fun _ : ℚ => (0 : ℚ)) 0 = 0 ∧ (fun _ : ℚ => (0 : ℚ)) 37 = 0 ∧
    ((generateFallbackRoute (fun _ => 0) 37 (fun _ => 0)
        (LatLng.mk 1 2) (LatLng.mk 3 4)).length = 21 ∧
     (generateFallbackRoute (fun _ => 0) 37 (fun _ => 0)
        (LatLng.mk 1 2) (LatLng.mk 3 4)).head? = some (LatLng.mk 1 2) ∧
     (generateFallbackRoute (fun _ => 0) 37 (fun _ => 0)
        (LatLng.mk 1 2) (LatLng.mk 3 4)).getLast? = some (LatLng.mk 3 4)) :=
  ⟨rfl, rfl,
   C2_fallback_endpoints (fun _ => 0) 37 (fun _ => 0) (LatLng.mk 1 2) (LatLng.mk 3 4) rfl rfl⟩

/-- C3 counterexample: the claim asserts that one and the same curve term is
added to both the latitude and the longitude of a point.  The code draws
`Math.random()` twice per point (once for the latitude, once for the
longitude), so with start = end = (0,0), a draw stream `rnd n = n`, a `sin`
stand-in that is constantly 1 and index 1 there is no single curve value that
accounts for both coordinates. -/
theorem C3_counterexample :
    ¬ ∃ curve : ℚ,
      (generateFallbackRoute (fun _ => 1) 0 (fun n => (n : ℚ))
          (LatLng.mk 0 0) (LatLng.mk 0 0))[1]? =
        some (LatLng.mk (0 + (0 - 0) * (1 / 20) + curve)
                        (0 + (0 - 0) * (1 / 20) + curve)) := by
  rintro ⟨c, hc⟩
  rw [generateFallbackRoute_point _ _ _ _ _ 1 (by norm_num)] at hc
  simp only [Option.some.injEq, LatLng.mk.injEq] at hc
  obtain ⟨h1, h2⟩ := hc
  norm_num at h1 h2
  linarith

/-- C3 amended: for index `i ≤ 20` with `t = i/20`, the `i`-th point is
`(lat0 + (lat1-lat0)·t + sin(t·π)·K·(r₁-1/2), lng0 + (lng1-lng0)·t +
sin(t·π)·K·(r₂-1/2))` with `K = 0.01`, where `r₁` and `r₂` are two
*independent successive* draws of the random source (draws `2i` and `2i+1`)
— the factor `sin(t·π)·K` is shared, but the random factor is drawn afresh
for the longitude. -/
theorem C3_point_formula (sin : ℚ → ℚ) (pi : ℚ) (rnd : ℕ → ℚ)
    (start endC : LatLng) (i : ℕ) (hi : i ≤ 20) :
    (generateFallbackRoute sin pi rnd start endC)[i]? =
      some (LatLng.mk
        (start.lat + (endC.lat - start.lat) * ((i : ℚ) / 20)
          + sin ((i : ℚ) / 20 * pi) * (1 / 100) * (rnd (2 * i) - 1 / 2))
        (start.lng + (endC.lng - start.lng) * ((i : ℚ) / 20)
          + sin ((i : ℚ) / 20 * pi) * (1 / 100) * (rnd (2 * i + 1) - 1 / 2))) :=
  generateFallbackRoute_point sin pi rnd start endC i (by omega)

theorem C3_witness :
    (1 : ℕ) ≤ 20 ∧
    (generateFallbackRoute (fun _ => 1) 0 (fun n => (n : ℚ))
        (LatLng.mk 0 0) (LatLng.mk 0 0))[1]? =
      some (LatLng.mk (3 / 200) (1 / 40)) := by
  refine ⟨by decide, ?_⟩
  rw [C3_point_formula (fun _ => 1) 0 (fun n => (n : ℚ))
      (LatLng.mk 0 0) (LatLng.mk 0 0) 1 (by decide)]
  norm_num

/-- C4: submitting with the same non-empty start and end location sets the
"choose different locations" error and returns before any route is built:
the stored route is unchanged and `updateRoute` is not invoked. -/
theorem C4_duplicate_locations (st : DashState) (mapPresent : Bool)
    (hne : st.startLocation ≠ "") (heq : st.startLocation = st.endLocation) :
    (handleGenerateRoute mapPresent st).state.error = "⚠️ Please choose different locations." ∧
    (handleGenerateRoute mapPresent st).state.route = st.route ∧
    (handleGenerateRoute mapPresent st).mapUpdate = none := by
  have hend : st.endLocation ≠ "" := heq ▸ hne
  simp [handleGenerateRoute, hne, hend, heq]

theorem C4_witness :
    (DashState.mk "Downtown Vancouver" "Downtown Vancouver" "sunny" none "stale" false).startLocation ≠ "" ∧
    ((handleGenerateRoute true
        (DashState.mk "Downtown Vancouver" "Downtown Vancouver" "sunny" none "stale" false)).state.error
        = "⚠️ Please choose different locations." ∧
     (handleGenerateRoute true
        (DashState.mk "Downtown Vancouver" "Downtown Vancouver" "sunny" none "stale" false)).state.route
        = none ∧
     (handleGenerateRoute true
        (DashState.mk "Downtown Vancouver" "Downtown Vancouver" "sunny" none "stale" false)).mapUpdate
        = none) :=
  ⟨by decide,
   C4_duplicate_locations
     (DashState.mk "Downtown Vancouver" "Downtown Vancouver" "sunny" none "stale" false)
     true (by decide) rfl⟩

/-- C5: one tick of the animation interval advances the cursor by one while
below the last index, wraps from the last index back to 0, and — starting
from 0 — the cursor stays a valid index of the non-empty coordinate sequence
at every tick (so there is no terminal state). -/
theorem C5_animation_cursor (L c : ℕ) (hL : 1 ≤ L) (hc : c ≤ L - 1) :
    (c < L - 1 → animationStep L c = c + 1) ∧
    (c = L - 1 → animationStep L c = 0) ∧
    animationStep L c ≤ L - 1 ∧
    (∀ n : ℕ, Nat.iterate (animationStep L) n 0 ≤ L - 1) := by
  refine ⟨fun h => by simp [animationStep, h], fun h => ?_, ?_, ?_⟩
  · subst h
    simp [animationStep]
  · unfold animationStep
    split <;> omega
  · intro n
    induction n with
    | zero => exact Nat.zero_le _
    | succ k ih =>
        rw [Function.iterate_succ_apply']
        unfold animationStep
        split <;> omega

theorem C5_witness :
    1 ≤ 3 ∧ (1 : ℕ) ≤ 3 - 1 ∧
    ((1 < 3 - 1 → animationStep 3 1 = 1 + 1) ∧
     (1 = 3 - 1 → animationStep 3 1 = 0) ∧
     animationStep 3 1 ≤ 3 - 1 ∧
     (∀ n : ℕ, Nat.iterate (animationStep 3) n 0 ≤ 3 - 1)) :=
  ⟨by decide, by decide, C5_animation_cursor 3 1 (by decide) (by decide)⟩

/-- C6: `isHighRisk` is true exactly for weather `"rain"` or `"snow"`, and
the analysis table suggests the heavy-duty refrigerated truck exactly in the
high-risk case and the standard refrigerated van otherwise. -/
theorem C6_risk_and_vehicle (w : String) :
    (isHighRisk w = true ↔ (w = "rain" ∨ w = "snow")) ∧
    (getSuggestedVehicle w = "Heavy-Duty Refrigerated Truck" ↔ isHighRisk w = true) ∧
    (getSuggestedVehicle w = "Standard Refrigerated Van" ↔ isHighRisk w = false) := by
  refine ⟨by simp [isHighRisk], ?_, ?_⟩
  · by_cases h : isHighRisk w = true <;> simp [getSuggestedVehicle, h]
  · by_cases h : isHighRisk w = true <;> simp [getSuggestedVehicle, h]

/-- C7: in the Mapbox variant with no configured credential (token empty or
equal to the placeholder, which is what the source ships), the client returns
exactly the direct two-point line `[start, end]`, for every possible provider
response — so the result depends on no network call and is never the
fallback generator's output. -/
theorem C7_no_token_direct_line (token : String) (response : ProviderResponse)
    (sin : ℚ → ℚ) (pi : ℚ) (rnd : ℕ → ℚ) (start endC : LatLng)
    (htok : tokenNotConfigured token = true) :
    fetchMapboxRoute token response sin pi rnd start endC = [start, endC] := by
  simp [fetchMapboxRoute, htok]

theorem C7_witness :
    tokenNotConfigured MAPBOX_TOKEN = true ∧
    fetchMapboxRoute MAPBOX_TOKEN ProviderResponse.thrown (fun _ => 0) 0 (fun _ => 0)
        (LatLng.mk 1 2) (LatLng.mk 3 4) = [LatLng.mk 1 2, LatLng.mk 3 4] :=
  ⟨by decide,
   C7_no_token_direct_line MAPBOX_TOKEN ProviderResponse.thrown (fun _ => 0) 0 (fun _ => 0)
     (LatLng.mk 1 2) (LatLng.mk 3 4) (by decide)⟩

/-- C8: each point of the fallback route deviates from the exact straight
line interpolation by at most 0.005 = 1/200 degrees in each coordinate,
given that `sin` is bounded by 1 at the evaluated argument and the two random
draws used for the point lie in `[0, 1]`. -/
theorem C8_jitter_bound (sin : ℚ → ℚ) (pi : ℚ) (rnd : ℕ → ℚ)
    (start endC : LatLng) (i : ℕ) (p : LatLng)
    (hp : (generateFallbackRoute sin pi rnd start endC)[i]? = some p)
    (hsin : |sin ((i : ℚ) / 20 * pi)| ≤ 1)
    (hr1 : 0 ≤ rnd (2 * i) ∧ rnd (2 * i) ≤ 1)
    (hr2 : 0 ≤ rnd (2 * i + 1) ∧ rnd (2 * i + 1) ≤ 1) :
    |p.lat - (start.lat + (endC.lat - start.lat) * ((i : ℚ) / 20))| ≤ 1 / 200 ∧
    |p.lng - (start.lng + (endC.lng - start.lng) * ((i : ℚ) / 20))| ≤ 1 / 200 := by
  have hi : i < 21 := by
    by_contra hge
    rw [List.getElem?_eq_none
      (by rw [generateFallbackRoute_length]; omega)] at hp
    exact Option.noConfusion hp
  rw [generateFallbackRoute_point sin pi rnd start endC i hi] at hp
  have hpv := Option.some.inj hp
  subst hpv
  constructor
  · have e1 : (start.lat + (endC.lat - start.lat) * ((i : ℚ) / 20)
        + sin ((i : ℚ) / 20 * pi) * (1 / 100) * (rnd (2 * i) - 1 / 2))
        - (start.lat + (endC.lat - start.lat) * ((i : ℚ) / 20))
        = sin ((i : ℚ) / 20 * pi) * (1 / 100) * (rnd (2 * i) - 1 / 2) := by ring
    rw [e1]
    exact jitter_abs_le _ _ hsin hr1.1 hr1.2
  · have e2 : (start.lng + (endC.lng - start.lng) * ((i : ℚ) / 20)
        + sin ((i : ℚ) / 20 * pi) * (1 / 100) * (rnd (2 * i + 1) - 1 / 2))
        - (start.lng + (endC.lng - start.lng) * ((i : ℚ) / 20))
        = sin ((i : ℚ) / 20 * pi) * (1 / 100) * (rnd (2 * i + 1) - 1 / 2) := by ring
    rw [e2]
    exact jitter_abs_le _ _ hsin hr2.1 hr2.2

theorem C8_witness :
    (generateFallbackRoute (fun _ => 0) 0 (fun _ => 0)
        (LatLng.mk 0 0) (LatLng.mk 1 1))[0]? = some (LatLng.mk 0 0) ∧
    |(0 : ℚ)| ≤ 1 ∧ ((0 : ℚ) ≤ 0 ∧ (0 : ℚ) ≤ 1) ∧
    (|(LatLng.mk (0 : ℚ) 0).lat - ((LatLng.mk (0 : ℚ) 0).lat
        + ((LatLng.mk (1 : ℚ) 1).lat - (LatLng.mk (0 : ℚ) 0).lat) * (((0 : ℕ) : ℚ) / 20))| ≤ 1 / 200 ∧
     |(LatLng.mk (0 : ℚ) 0).lng - ((LatLng.mk (0 : ℚ) 0).lng
        + ((LatLng.mk (1 : ℚ) 1).lng - (LatLng.mk (0 : ℚ) 0).lng) * (((0 : ℕ) : ℚ) / 20))| ≤ 1 / 200) := by
  have hp : (generateFallbackRoute (fun _ => 0) 0 (fun _ => 0)
      (LatLng.mk 0 0) (LatLng.mk 1 1))[0]? = some (LatLng.mk 0 0) := by
    rw [generateFallbackRoute_point (fun _ => 0) 0 (fun _ => 0)
        (LatLng.mk 0 0) (LatLng.mk 1 1) 0 (by norm_num)]
    simp only [Option.some.injEq, LatLng.mk.injEq]
    norm_num
  exact ⟨hp, by norm_num, by norm_num,
    C8_jitter_bound (fun _ => 0) 0 (fun _ => 0) (LatLng.mk 0 0) (LatLng.mk 1 1) 0
      (LatLng.mk 0 0) hp (by norm_num) (by norm_num) (by norm_num)⟩

/-- C9: a run of `handleGenerateRoute` that starts outside the loading state
ends outside it on every path; the error message it leaves is one of the
empty string or the three messages the handler itself writes (the stale error
is always cleared first); and any run that replaces the stored route leaves
the error message empty. -/
theorem C9_loading_and_error (st : DashState) (mapPresent : Bool)
    (h : st.isLoading = false) :
    (handleGenerateRoute mapPresent st).state.isLoading = false ∧
    ((handleGenerateRoute mapPresent st).state.error = "" ∨
     (handleGenerateRoute mapPresent st).state.error
       = "Please select both start and end locations." ∨
     (handleGenerateRoute mapPresent st).state.error
       = "⚠️ Please choose different locations." ∨
     (handleGenerateRoute mapPresent st).state.error
       = "⚠️ No valid route found for selected locations.") ∧
    ((handleGenerateRoute mapPresent st).state.route ≠ st.route →
      (handleGenerateRoute mapPresent st).state.error = "") := by
  unfold handleGenerateRoute
  by_cases h1 : st.startLocation = "" ∨ st.endLocation = ""
  · simp [h1, h]
  · push_neg at h1
    by_cases h2 : st.startLocation = st.endLocation
    · simp [h1.1, h1.2, h2, h]
    · rcases hs : BC_LOCATIONS.find? (fun loc => loc.name == st.startLocation) with _ | s <;>
        rcases he : BC_LOCATIONS.find? (fun loc => loc.name == st.endLocation) with _ | e <;>
        simp [h1.1, h1.2, h2, hs, he, h]

theorem C9_witness :
    (DashState.mk "Downtown Vancouver" "UBC Vancouver" "rain" none "stale" false).isLoading = false ∧
    ((handleGenerateRoute true
        (DashState.mk "Downtown Vancouver" "UBC Vancouver" "rain" none "stale" false)).state.isLoading
        = false ∧
     ((handleGenerateRoute true
        (DashState.mk "Downtown Vancouver" "UBC Vancouver" "rain" none "stale" false)).state.error = "" ∨
      (handleGenerateRoute true
        (DashState.mk "Downtown Vancouver" "UBC Vancouver" "rain" none "stale" false)).state.error
        = "Please select both start and end locations." ∨
      (handleGenerateRoute true
        (DashState.mk "Downtown Vancouver" "UBC Vancouver" "rain" none "stale" false)).state.error
        = "⚠️ Please choose different locations." ∨
      (handleGenerateRoute true
        (DashState.mk "Downtown Vancouver" "UBC Vancouver" "rain" none "stale" false)).state.error
        = "⚠️ No valid route found for selected locations.") ∧
     ((handleGenerateRoute true
        (DashState.mk "Downtown Vancouver" "UBC Vancouver" "rain" none "stale" false)).state.route
        ≠ (DashState.mk "Downtown Vancouver" "UBC Vancouver" "rain" none "stale" false).route →
      (handleGenerateRoute true
        (DashState.mk "Downtown Vancouver" "UBC Vancouver" "rain" none "stale" false)).state.error
        = "")) :=
  ⟨rfl,
   C9_loading_and_error
     (DashState.mk "Downtown Vancouver" "UBC Vancouver" "rain" none "stale" false) true rfl⟩

/-- C10: a weather value outside `{"sunny", "rain", "snow"}` is rendered by
the analysis table exactly as the sunny case: sun icon, `"☀️ Sunny"` label,
low risk (green badge), standard refrigerated van, time-optimized route, and
the optimal-conditions note — never an error and never high risk. -/
theorem C10_unknown_weather_defaults (w : String)
    (h1 : w ≠ "sunny") (h2 : w ≠ "rain") (h3 : w ≠ "snow") :
    getWeatherIcon w = WeatherIcon.sun ∧
    getWeatherLabel w = "☀️ Sunny" ∧
    isHighRisk w = false ∧
    getSuggestedVehicle w = "Standard Refrigerated Van" ∧
    getOptimizationMethod w = "Fastest route (time optimized)" ∧
    riskBadgeStyle w = "bg-green-100 text-green-800" ∧
    getNotes w = "Optimal conditions for delivery" := by
  have hr : isHighRisk w = false := by
    simp [isHighRisk, h2, h3]
  simp [getWeatherIcon, getWeatherLabel, getSuggestedVehicle, getOptimizationMethod,
    riskBadgeStyle, getNotes, h1, h2, h3, hr]

theorem C10_witness :
    "fog" ≠ "sunny" ∧ "fog" ≠ "rain" ∧ "fog" ≠ "snow" ∧
    (getWeatherIcon "fog" = WeatherIcon.sun ∧
     getWeatherLabel "fog" = "☀️ Sunny" ∧
     isHighRisk "fog" = false ∧
     getSuggestedVehicle "fog" = "Standard Refrigerated Van" ∧
     getOptimizationMethod "fog" = "Fastest route (time optimized)" ∧
     riskBadgeStyle "fog" = "bg-green-100 text-green-800" ∧
     getNotes "fog" = "Optimal conditions for delivery") :=
  ⟨by decide, by decide, by decide,
   C10_unknown_weather_defaults "fog" (by decide) (by decide) (by decide)⟩

end NovaFreeze
